import Mathlib

/-!
Verification development for `src/httpepserver/KmsHttpEPServer.cpp` (kms-elements
HTTP endpoint server).  The C functions relevant to the frozen claims are embedded
shallowly below: byte chunks are `List Nat` (one `Nat` per byte, values < 256),
C strings are `String` or `List Nat`, GObject key/value side tables become explicit
record fields, and the libsoup request/response machinery is reduced to the data
the handlers actually inspect.  Each definition carries a reference to the source
function it transcribes.
-/

/-- ASCII codes used by the multipart scanner: CR = 13, LF = 10, dash = 45. -/
def CR : Nat := 13

/-- ASCII line feed. -/
def LF : Nat := 10

/-- ASCII dash. -/
def DASH : Nat := 45

/-- `memchr (start + p, c, len)` over a chunk embedded as a byte list: the first
index `q` with `p ≤ q < p + len` and `chunk[q] = c`, scanning left to right.
Positions outside the list read the default 0 (the callers below never let that
happen: they cap `len` at the in-chunk portion and flag the overrun instead). -/
def memchr (chunk : List Nat) (p len c : Nat) : Option Nat :=
  match len with
  | 0 => none
  | Nat.succ l => if chunk.getD p 0 = c then some p else memchr chunk (p + 1) l c

/-- `g_utf8_strlen (boundary, -1)`: the number of UTF-8 characters, i.e. the
number of bytes that are not continuation bytes (`0x80 ≤ b ≤ 0xBF`). -/
def utf8len (bs : List Nat) : Nat :=
  (bs.filter (fun b => decide (b < 128 ∨ 192 ≤ b))).length

/-- `g_str_has_prefix (boundary, b + 2)` as called at KmsHttpEPServer.cpp:494,
where the second argument is a pointer into the chunk read as a C string:
true iff the chunk bytes from `p` up to the first 0 byte form a prefix of
`boundary`.  (Resolution always happens at or before index `boundary.length`,
so with the loop guard the bytes consulted lie inside the chunk.) -/
def hasPrefixCStr : List Nat → List Nat → Nat → Bool
  | [], chunk, p => chunk.getD p 0 == 0
  | a :: rest, chunk, p =>
    let c := chunk.getD p 0
    if c == 0 then true
    else if c == a then hasPrefixCStr rest chunk (p + 1)
    else false

/-- One iteration of the boundary-scan loop body of `find_content_part`
(KmsHttpEPServer.cpp:493-506), at match candidate `b`.  Returns the updated
`(content_start, content_end, oob)` triple.  `content_start` is a chunk offset;
`content_end` is an `Int` because the code stores `b - 2`, which for `b < 2`
points before the chunk.  The `oob` flag records the out-of-range read the C
code performs when `b = start + 1` and `b[-1] = LF`: it then reads `b[-2]`,
one byte before the chunk (the nominal value below is then immaterial). -/
def fcpBody (chunk boundary : List Nat) (blen b : Nat)
    (cs : Option Nat) (ce : Option Int) (oob : Bool) :
    Option Nat × Option Int × Bool :=
  if ¬ chunk.getD (b + 1) 0 = DASH then (cs, ce, oob)
  else if hasPrefixCStr boundary chunk (b + 2) then (cs, ce, oob)
  else
    let oob1 := oob || ((b == 1) && (chunk.getD 0 0 == LF))
    if ¬ (b = 0 ∨ (chunk.getD (b - 1) 0 = LF ∧ chunk.getD (b - 2) 0 = CR)) then
      (cs, ce, oob1)
    else if chunk.getD (b + blen + 2) 0 = DASH ∧ chunk.getD (b + blen + 3) 0 = DASH then
      (cs, some ((b : Int) - 2), oob1)
    else if chunk.getD (b + blen + 2) 0 = CR ∧ chunk.getD (b + blen + 3) 0 = LF then
      (some (b + blen + 3), ce, oob1)
    else (cs, ce, oob1)

/-- The boundary-scan loop of `find_content_part` (KmsHttpEPServer.cpp:491-507):
`for (b = memchr (start, '-', end - start); b && b + boundary_len + 4 < end;
 b = memchr (b + 2, '-', end - (b + 2)))`.
`fuel` only bounds the recursion: each iteration advances `b` by at least 2 and
runs only while `b + blen + 4 < n`, so the initial fuel `n + 1` is never
exhausted. -/
def fcpLoop (chunk boundary : List Nat) (blen n : Nat) :
    Nat → Nat → Option Nat → Option Int → Bool → Option Nat × Option Int × Bool
  | 0, _, cs, ce, oob => (cs, ce, oob)
  | Nat.succ fuel, b, cs, ce, oob =>
    if b + blen + 4 < n then
      match fcpBody chunk boundary blen b cs ce oob with
      | (cs2, ce2, oob2) =>
        match memchr chunk (b + 2) (n - (b + 2)) DASH with
        | none => (cs2, ce2, oob2)
        | some b2 => fcpLoop chunk boundary blen n fuel b2 cs2 ce2 oob2
    else (cs, ce, oob)

/-- The header-skip loop of `find_content_part` (KmsHttpEPServer.cpp:509-517):
`for (c = memchr (*content_start, '\r', end - *content_start); c < end;
 c = memchr (c + 4, '\r', end - (c + 2))) ...`, searching for CR LF CR LF.
The C loop reads `c[1]`, `c[2]`, `c[3]` without checking that they lie before
`end`, and its continuation scan covers `[c + 4, end + 2)`, two bytes past the
chunk; moreover a `memchr` miss yields NULL, which still compares `< end` and is
then dereferenced.  The embedding scans only the in-chunk portion and returns
`oob = true` whenever the C code would touch memory outside the chunk.
`fuel` only bounds the recursion (each step advances `c` by at least 4 within
the chunk, so `n + 1` is never exhausted). -/
def skipHeadersLoopAt (chunk : List Nat) (n : Nat) :
    Nat → Nat → Nat → Bool → Nat × Bool
  | 0, cs, _, oob => (cs, oob)
  | Nat.succ fuel, cs, c, oob =>
    let oob1 := oob || decide (n ≤ c + 3)
    if chunk.getD (c + 1) 0 = LF ∧ chunk.getD (c + 2) 0 = CR ∧ chunk.getD (c + 3) 0 = LF then
      (c + 4, oob1)
    else
      match memchr chunk (c + 4) (n - (c + 4)) CR with
      | some q => skipHeadersLoopAt chunk n fuel cs q oob1
      | none => (cs, true)

/-- `find_content_part` (KmsHttpEPServer.cpp:479-518) over a chunk `[0, n)` and a
boundary string, both as byte lists.  Result: `(content_start, content_end, oob)`
where `content_start`/`content_end` are the values left in the two out
parameters (`none` = still NULL) and `oob = true` records that the C code read
at least one byte outside the chunk (the reads modeled are the `b[-2]` read of
the line-start test and every access of the header-skip loop, including the
NULL-dereference path when its `memchr` finds no CR). -/
def find_content_part (chunk boundary : List Nat) : Option Nat × Option Int × Bool :=
  let n := chunk.length
  let blen := utf8len boundary
  let r :=
    match memchr chunk 0 n DASH with
    | none => ((none : Option Nat), (none : Option Int), false)
    | some b => fcpLoop chunk boundary blen n (n + 1) b none none false
  match r with
  | (none, ce, oob) => (none, ce, oob)
  | (some cs, ce, oob) =>
    match memchr chunk cs (n - cs) CR with
    | none => (some cs, ce, true)
    | some c =>
      match skipHeadersLoopAt chunk n (n + 1) cs c false with
      | (cs2, oob2) => (some cs2, ce, oob || oob2)

/-- `g_str_has_prefix (str, p)` on proper C strings: true iff `str` begins with
`p` (glib semantics, argument order as in the glib API). -/
def g_str_has_prefix (str p : List Char) : Bool :=
  List.isPrefixOf p str

/-- Observable outcome of `kms_http_ep_server_post_handler`: the HTTP status it
sets, the boundary stored on the message under `KEY_BOUNDARY` (if any), and
whether the `got-chunk` and `finished` signal handlers were connected (their
ids stored under `KEY_GOT_CHUNK_HANDLER_ID` / `KEY_FINISHED_HANDLER_ID`). -/
structure PostOutcome where
  status : Nat
  boundaryStored : Option String
  gotChunkConnected : Bool
  finishedConnected : Bool
deriving DecidableEq, Repr

/-- `kms_http_ep_server_post_handler` (KmsHttpEPServer.cpp:604-661).
`contentType` is the parsed Content-Type (`none` when the header is absent),
`boundaryParam` the `boundary` entry of its parameter table.  Note the code
calls `g_str_has_prefix ("multipart/", content_type)`, i.e. it tests whether
`content_type` is a prefix of the literal `"multipart/"`, and takes the
`get_chunks` path when that fails. -/
def kms_http_ep_server_post_handler (contentType : Option String)
    (boundaryParam : Option String) : PostOutcome :=
  match contentType with
  | none =>
    { status := 406, boundaryStored := none,
      gotChunkConnected := false, finishedConnected := false }
  | some ct =>
    if ¬ g_str_has_prefix "multipart/".data ct.data then
      { status := 200, boundaryStored := none,
        gotChunkConnected := true, finishedConnected := true }
    else
      match boundaryParam with
      | none =>
        { status := 406, boundaryStored := none,
          gotChunkConnected := false, finishedConnected := false }
      | some b =>
        { status := 200, boundaryStored := some b,
          gotChunkConnected := true, finishedConnected := true }

/-- A session cookie as stored on an endpoint under `KEY_COOKIE`
(`kms_http_ep_server_set_cookie`, KmsHttpEPServer.cpp:757-781): name/value pair
plus its expiry data at the instant a request is processed. `expired` is the
value of `soup_date_is_past (soup_cookie_get_expires cookie)` and
`secondsUntil` the value of `difftime (expires, now)` when not expired. -/
structure SessionCookie where
  name : String
  value : String
  expired : Bool
  secondsUntil : Nat
deriving DecidableEq, Repr

/-- A cookie presented by the client (one element of
`soup_cookies_from_request`). -/
structure ReqCookie where
  name : String
  value : String
deriving DecidableEq, Repr

/-- `cookie_has_expired` (KmsHttpEPServer.cpp:152-158). -/
def cookie_has_expired (c : SessionCookie) : Bool :=
  c.expired

/-- `kms_http_ep_server_check_cookie` (KmsHttpEPServer.cpp:783-818): false when
the session cookie has expired, false when the request carries no cookies,
otherwise true iff some request cookie has exactly the session cookie's name
and value (`g_strcmp0` on both). -/
def kms_http_ep_server_check_cookie (cookie : SessionCookie)
    (reqCookies : List ReqCookie) : Bool :=
  if cookie_has_expired cookie then false
  else
    match reqCookies with
    | [] => false
    | _ => reqCookies.any (fun c => c.name == cookie.name && c.value == cookie.value)

/-- HTTP method of a message, compared against `SOUP_METHOD_GET` and
`SOUP_METHOD_POST` in the source. -/
inductive Method where
  | get
  | post
  | other (s : String)
deriving DecidableEq, Repr

/-- The per-message side table populated by the dispatch path: the handler ids
stored under `KEY_NEW_SAMPLE_HANDLER_ID`, `KEY_EOS_HANDLER_ID`,
`KEY_GOT_CHUNK_HANDLER_ID` and `KEY_FINISHED_HANDLER_ID` (`none` = the key was
never set, so `g_object_get_data` yields NULL). -/
structure PendingMsg where
  method : Method
  newSampleHandlerId : Option Nat
  eosHandlerId : Option Nat
  gotChunkHandlerId : Option Nat
  finishedHandlerId : Option Nat
deriving DecidableEq, Repr

/-- The per-endpoint side table: session cookie (`KEY_COOKIE`), pending expiry
timer (`KEY_TIMEOUT_ID`), registration parameters (`KEY_PARAM_LIFETIME`,
`KEY_PARAM_TIMEOUT`) and the bound message (`KEY_MESSAGE`). -/
structure Endpoint where
  cookie : Option SessionCookie
  timeoutId : Option Nat
  lifetime : Nat
  timeout : Nat
  message : Option PendingMsg
deriving DecidableEq, Repr

/-- The two values of `KmsHttpEndPointAction` emitted with `action-requested`. -/
inductive HttpAction where
  | get
  | post
deriving DecidableEq, Repr

/-- Lookup in the server's `handlers` hash table (keys compared with
`g_strcmp0`, i.e. string equality). -/
def tableLookup {α : Type} (hs : List (String × α)) (uri : String) : Option α :=
  match hs.find? (fun kv => kv.1 == uri) with
  | some kv => some kv.2
  | none => none

/-- Replace the endpoint object stored at `uri` (the C code mutates the
`GstElement` in place; the table keeps mapping `uri` to it). -/
def updateEp (hs : List (String × Endpoint)) (uri : String) (e : Endpoint) :
    List (String × Endpoint) :=
  hs.map (fun kv => if kv.1 == uri then (uri, e) else kv)

/-- `kms_http_ep_server_manage_cookie_session` (KmsHttpEPServer.cpp:820-834):
returns (request admitted, endpoint afterwards, Set-Cookie header issued).
If the endpoint has a cookie, validate the request against it (no state
change, no header); otherwise create the fresh cookie, append the Set-Cookie
header, store the cookie on the endpoint and admit.  `fresh` stands for the
cookie `kms_http_ep_server_set_cookie` builds from the server's PRNG and the
endpoint's `KEY_PARAM_LIFETIME`. -/
def kms_http_ep_server_manage_cookie_session (ep : Endpoint) (reqCookies : List ReqCookie)
    (fresh : SessionCookie) : Bool × Endpoint × Bool :=
  match ep.cookie with
  | some c => (kms_http_ep_server_check_cookie c reqCookies, ep, false)
  | none => (true, { ep with cookie := some fresh }, true)

/-- An inbound HTTP request as seen by `got_headers_handler`: path, method,
request cookies, and (for POST) the parsed Content-Type header and its
`boundary` parameter. -/
structure Request where
  path : String
  method : Method
  cookies : List ReqCookie
  contentType : Option String
  boundaryParam : Option String
deriving DecidableEq, Repr

/-- Everything observable about one run of `got_headers_handler`: the HTTP
status it (or the GET/POST handler it delegates to) sets, the handlers table
afterwards, the `action-requested` emissions, whether a Set-Cookie header was
appended, whether the GET handler installed its signal handlers, and the POST
handler's outcome when it ran. -/
structure DispatchResult where
  status : Option Nat
  handlers : List (String × Endpoint)
  actionsEmitted : List (String × HttpAction)
  setCookieIssued : Bool
  getHandlersInstalled : Bool
  postOutcome : Option PostOutcome
deriving DecidableEq, Repr

/-- `got_headers_handler` (KmsHttpEPServer.cpp:836-886).  Order of operations as
in the source: path lookup (404 on miss), cookie session management (400 on
rejection), `remove_cookie_timeout`, binding of the message to the endpoint
under `KEY_MESSAGE`, then the method dispatch — GET installs the finished /
new-sample / eos handlers and sets 200, POST runs
`kms_http_ep_server_post_handler`, any other method gets 405 with no handlers
installed; `action-requested` is emitted after a GET or POST dispatch only.
The bound `PendingMsg` records which handler ids were stored on the message;
the concrete ids are opaque tokens. -/
def got_headers_handler (hs : List (String × Endpoint)) (req : Request)
    (fresh : SessionCookie) : DispatchResult :=
  match tableLookup hs req.path with
  | none =>
    { status := some 404, handlers := hs, actionsEmitted := [],
      setCookieIssued := false, getHandlersInstalled := false, postOutcome := none }
  | some ep =>
    match kms_http_ep_server_manage_cookie_session ep req.cookies fresh with
    | (ok, ep1, issued) =>
      if ¬ ok = true then
        { status := some 400, handlers := hs, actionsEmitted := [],
          setCookieIssued := false, getHandlersInstalled := false, postOutcome := none }
      else
        let ep2 : Endpoint := { ep1 with timeoutId := none }
        match req.method with
        | Method.get =>
          let msg : PendingMsg :=
            { method := Method.get, newSampleHandlerId := some 2, eosHandlerId := some 3,
              gotChunkHandlerId := none, finishedHandlerId := some 1 }
          { status := some 200,
            handlers := updateEp hs req.path { ep2 with message := some msg },
            actionsEmitted := [(req.path, HttpAction.get)],
            setCookieIssued := issued, getHandlersInstalled := true, postOutcome := none }
        | Method.post =>
          let po := kms_http_ep_server_post_handler req.contentType req.boundaryParam
          let msg : PendingMsg :=
            { method := Method.post, newSampleHandlerId := none, eosHandlerId := none,
              gotChunkHandlerId := if po.gotChunkConnected then some 4 else none,
              finishedHandlerId := if po.finishedConnected then some 5 else none }
          { status := some po.status,
            handlers := updateEp hs req.path { ep2 with message := some msg },
            actionsEmitted := [(req.path, HttpAction.post)],
            setCookieIssued := issued, getHandlersInstalled := false, postOutcome := some po }
        | Method.other s =>
          let msg : PendingMsg :=
            { method := Method.other s, newSampleHandlerId := none, eosHandlerId := none,
              gotChunkHandlerId := none, finishedHandlerId := none }
          { status := some 405,
            handlers := updateEp hs req.path { ep2 with message := some msg },
            actionsEmitted := [],
            setCookieIssued := issued, getHandlersInstalled := false, postOutcome := none }

/-- Dereference a handler-id slot read back with `g_object_get_data`: the C code
does `*handlerid` unconditionally, a NULL dereference when the key was never
stored. -/
def derefHandlerId (h : Option Nat) : Except String Nat :=
  match h with
  | none => Except.error "null handler id dereferenced"
  | some v => Except.ok v

/-- `destroy_pending_message` (KmsHttpEPServer.cpp:702-736), run when the
`KEY_MESSAGE` binding is torn down.  For GET it disconnects the new-sample and
eos handlers (`disconnect_eos_new_sample_signals` dereferences both ids, unless
the endpoint is no longer registered, in which case it returns early); for POST
it dereferences the got-chunk id; then, for every method, it dereferences the
finished-handler id.  `registeredAtPath` says whether the message's path is
still in the handlers table. -/
def destroy_pending_message (registeredAtPath : Bool) (m : PendingMsg) :
    Except String Unit := do
  let _ ← (match m.method with
    | Method.get =>
      if registeredAtPath then do
        let _ ← derefHandlerId m.newSampleHandlerId
        let _ ← derefHandlerId m.eosHandlerId
        pure 0
      else pure 0
    | Method.post => do
      let _ ← derefHandlerId m.gotChunkHandlerId
      pure 0
    | Method.other _ => pure 0)
  let _ ← derefHandlerId m.finishedHandlerId
  pure ()

/-- `kms_http_ep_server_register_handler` (KmsHttpEPServer.cpp:738-755): if the
uri already maps to an element, report the collision and leave the table
untouched; otherwise insert.  Endpoint objects are opaque (`α`). -/
def kms_http_ep_server_register_handler {α : Type} (hs : List (String × α))
    (uri : String) (endpoint : α) : Bool × List (String × α) :=
  match tableLookup hs uri with
  | some _ => (false, hs)
  | none => (true, (uri, endpoint) :: hs)

/-- `kms_http_ep_server_register_end_point_impl` (KmsHttpEPServer.cpp:1009-1053),
after the type check and UUID generation (both external): registers the freshly
generated `url` and returns it, or returns NULL (`none`) when the registration
collides. -/
def kms_http_ep_server_register_end_point_impl {α : Type} (hs : List (String × α))
    (url : String) (endpoint : α) : Option String × List (String × α) :=
  match kms_http_ep_server_register_handler hs url endpoint with
  | (false, hs2) => (none, hs2)
  | (true, hs2) => (some url, hs2)

/-- `kms_http_ep_server_unregister_end_point_impl` (KmsHttpEPServer.cpp:1055-1081)
restricted to its effect on the handlers table: false when the uri is not
registered, otherwise remove the entry and succeed. -/
def kms_http_ep_server_unregister_end_point_impl {α : Type} (hs : List (String × α))
    (uri : String) : Bool × List (String × α) :=
  if (tableLookup hs uri).isSome then
    (true, hs.filter (fun kv => !(kv.1 == uri)))
  else (false, hs)

/-- A registry operation: one call to the register or unregister entry point. -/
inductive RegOp where
  | reg (uri : String) (e : Nat)
  | unreg (uri : String)
deriving DecidableEq, Repr

/-- Apply one registry operation to the handlers table (endpoints as opaque
`Nat` identities). -/
def applyRegOp (hs : List (String × Nat)) : RegOp → List (String × Nat)
  | RegOp.reg u e => (kms_http_ep_server_register_handler hs u e).2
  | RegOp.unreg u => (kms_http_ep_server_unregister_end_point_impl hs u).2

/-- Apply a sequence of registry operations in order. -/
def applyRegOps (hs : List (String × Nat)) (ops : List RegOp) : List (String × Nat) :=
  ops.foldl applyRegOp hs

/-- Expiry bookkeeping of one endpoint, as read by `emit_expiration_signal`:
the session cookie (`KEY_COOKIE`), the idle-timeout parameter
(`KEY_PARAM_TIMEOUT`) and the pending one-shot timer (`KEY_TIMEOUT_ID`, here
the armed interval in seconds). -/
structure TimerState where
  cookie : Option SessionCookie
  timeoutParam : Nat
  timer : Option Nat
deriving DecidableEq, Repr

/-- Events that drive the expiry bookkeeping of one endpoint: a transfer
completing (`finished_get_processing` / `finished_post_processing` calling
`emit_expiration_signal`), an admitted request reaching the
`remove_cookie_timeout` call of `got_headers_handler`, and the armed timer
firing (`emit_expiration_signal_cb`). -/
inductive TimerEvent where
  | completeTransfer
  | admitRequest
  | fire
deriving DecidableEq, Repr

/-- `emit_expiration_signal` (KmsHttpEPServer.cpp:351-393): with no cookie, warn
and do nothing; with an expired cookie, emit `url-expired` immediately; else arm
a one-shot timer whose interval is `t_cookie` if `t_cookie < t_timeout` else
`t_timeout`, where `t_cookie = difftime (expires, now)` and `t_timeout` is the
idle-timeout parameter.  Returns the state afterwards and the signals emitted. -/
def emit_expiration_signal (st : TimerState) : TimerState × List String :=
  match st.cookie with
  | none => (st, [])
  | some c =>
    if cookie_has_expired c then (st, ["url-expired"])
    else
      let interval := if c.secondsUntil < st.timeoutParam then c.secondsUntil else st.timeoutParam
      ({ st with timer := some interval }, [])

/-- One step of the endpoint's expiry life cycle.  `completeTransfer` runs
`emit_expiration_signal`; `admitRequest` runs `remove_cookie_timeout`
(KmsHttpEPServer.cpp:160-174, called at KmsHttpEPServer.cpp:861 once the cookie
check has passed); `fire` runs `emit_expiration_signal_cb`
(KmsHttpEPServer.cpp:324-343), which emits `url-expired` once, removes the
timeout entry and returns FALSE so the GLib source never repeats — a timer that
is not armed cannot fire (`g_source_remove` destroyed it). -/
def timerStep (st : TimerState) : TimerEvent → TimerState × List String
  | TimerEvent.completeTransfer => emit_expiration_signal st
  | TimerEvent.admitRequest => ({ st with timer := none }, [])
  | TimerEvent.fire =>
    match st.timer with
    | some _ => ({ st with timer := none }, ["url-expired"])
    | none => (st, [])

/-- The response-side state of one GET message as touched by `send_buffer_cb`:
the `KEY_FINISHED` flag, the chunks appended to `msg->response_body` so far,
and whether `soup_server_unpause_message` has been signalled. -/
structure MsgIOState where
  finished : Bool
  responseBody : List (List Nat)
  resumed : Bool
deriving DecidableEq, Repr

/-- `send_buffer_cb` (KmsHttpEPServer.cpp:198-227), the write task queued with
`g_idle_add_full` for one pulled sample.  `sampleBytes` is the mapped content of
the sample's buffer, or `none` when `gst_sample_get_buffer` returns NULL or
`gst_buffer_map` fails.  The task first checks `msg_has_finished` and drops the
sample if the connection already closed; otherwise it appends the bytes to the
response body and unpauses the message. -/
def send_buffer_cb (st : MsgIOState) (sampleBytes : Option (List Nat)) : MsgIOState :=
  if st.finished then st
  else
    match sampleBytes with
    | none => st
    | some bs => { st with responseBody := st.responseBody ++ [bs], resumed := true }

/-! ### Helper lemmas shared by the claim theorems -/

theorem tableLookup_cons {α : Type} (k : String) (v : α) (hs : List (String × α)) (p : String) :
    tableLookup ((k, v) :: hs) p = if k = p then some v else tableLookup hs p := by
  by_cases h : k = p
  · simp [tableLookup, List.find?_cons_of_pos, h]
  · have hb : (k == p) = false := by simpa using h
    simp [tableLookup, List.find?_cons, hb, h]

theorem check_cookie_iff (c : SessionCookie) (rcs : List ReqCookie) :
    kms_http_ep_server_check_cookie c rcs = true ↔
      (c.expired = false ∧ ∃ rc ∈ rcs, rc.name = c.name ∧ rc.value = c.value) := by
  unfold kms_http_ep_server_check_cookie cookie_has_expired
  cases hexp : c.expired
  · cases rcs with
    | nil => simp
    | cons a l =>
      simp [List.any_eq_true, Bool.and_eq_true, beq_iff_eq]
  · simp [hexp]

theorem post_handler_status_cases (ct bp : Option String) :
    (kms_http_ep_server_post_handler ct bp).status = 200 ∨
    (kms_http_ep_server_post_handler ct bp).status = 406 := by
  unfold kms_http_ep_server_post_handler
  cases ct with
  | none => exact Or.inr rfl
  | some s =>
    by_cases h : g_str_has_prefix "multipart/".data s.data
    · simp only [h, not_true_eq_false, if_false]
      cases bp with
      | none => exact Or.inr rfl
      | some b => exact Or.inl rfl
    · simp only [h, not_false_eq_true, if_true]
      exact Or.inl rfl

theorem register_keeps {α : Type} (hs : List (String × α)) (p : String) (e : α)
    (q : String) (e2 : α) (h : tableLookup hs p = some e) :
    tableLookup (kms_http_ep_server_register_handler hs q e2).2 p = some e := by
  unfold kms_http_ep_server_register_handler
  cases hq : tableLookup hs q with
  | some w => simpa using h
  | none =>
    have hne : ¬ q = p := by
      intro he
      rw [he, h] at hq
      cases hq
    simp [tableLookup_cons, hne, h]

theorem register_fails_of_lookup_some {α : Type} (hs : List (String × α)) (p : String)
    (e e2 : α) (h : tableLookup hs p = some e) :
    kms_http_ep_server_register_handler hs p e2 = (false, hs) := by
  unfold kms_http_ep_server_register_handler
  simp [h]

theorem tableLookup_filter_ne {α : Type} (hs : List (String × α)) (p q : String)
    (h : ¬ q = p) :
    tableLookup (hs.filter (fun kv => !(kv.1 == q))) p = tableLookup hs p := by
  induction hs with
  | nil => rfl
  | cons kv t ih =>
    obtain ⟨k, v⟩ := kv
    by_cases hk : k = q
    · have hkp : ¬ k = p := by rw [hk]; exact h
      simp [List.filter_cons, hk, tableLookup_cons, hkp, h, ih]
    · have hb : (k == q) = false := by simpa using hk
      simp [List.filter_cons, hb, tableLookup_cons, ih]

theorem tableLookup_filter_self {α : Type} (hs : List (String × α)) (q : String) :
    tableLookup (hs.filter (fun kv => !(kv.1 == q))) q = none := by
  induction hs with
  | nil => rfl
  | cons kv t ih =>
    obtain ⟨k, v⟩ := kv
    by_cases hk : k = q
    · simp [List.filter_cons, hk, ih]
    · have hb : (k == q) = false := by simpa using hk
      simp [List.filter_cons, hb, tableLookup_cons, hk, ih]

theorem unregister_keeps {α : Type} (hs : List (String × α)) (p : String) (e : α)
    (q : String) (h : tableLookup hs p = some e) (hne : ¬ q = p) :
    tableLookup (kms_http_ep_server_unregister_end_point_impl hs q).2 p = some e := by
  unfold kms_http_ep_server_unregister_end_point_impl
  by_cases hq : (tableLookup hs q).isSome
  · simp [hq, tableLookup_filter_ne _ _ _ hne, h]
  · simp [hq, h]

theorem applyRegOps_keeps (ops : List RegOp) :
    ∀ hs : List (String × Nat), ∀ p : String, ∀ e : Nat,
      tableLookup hs p = some e → (∀ op ∈ ops, ¬ op = RegOp.unreg p) →
      tableLookup (applyRegOps hs ops) p = some e := by
  induction ops with
  | nil => intro hs p e h _; exact h
  | cons op ops ih =>
    intro hs p e h hops
    have h1 : tableLookup (applyRegOp hs op) p = some e := by
      cases op with
      | reg q e2 => exact register_keeps hs p e q e2 h
      | unreg q =>
        have hne : ¬ q = p := by
          intro he
          exact (hops _ (List.mem_cons_self _ _)) (by rw [he])
        exact unregister_keeps hs p e q h hne
    exact ih (applyRegOp hs op) p e h1 (fun o ho => hops o (List.mem_cons_of_mem _ ho))

/-! ### Claim C1 -/

/-- Claim C1: the claim states that a POST whose Content-Type is a multipart
kind and whose boundary parameter is absent is rejected with 406 and installs
no handlers.  Evaluating the embedded POST handler at the multipart request
`Content-Type: multipart/form-data` with no boundary parameter shows the code
instead answers 200, installs both the got-chunk and the finished handlers and
stores no boundary: the swapped `g_str_has_prefix ("multipart/", content_type)`
test never classifies a real multipart type as multipart. -/
theorem C1_multipart_without_boundary_admitted :
    kms_http_ep_server_post_handler (some "multipart/form-data") none =
      { status := 200, boundaryStored := none,
        gotChunkConnected := true, finishedConnected := true } := by rfl

/-! ### Claim C2 -/

/-- The bytes of `"ab\r\n--QQQ\r\nH: v\r\n\r\nDATA"`: a chunk that contains a
line-start `"--QQQ"` but nowhere the boundary `"XYZ"`. -/
def c2Chunk : List Nat :=
  [97, 98, 13, 10, 45, 45, 81, 81, 81, 13, 10, 72, 58, 32, 118, 13, 10, 13, 10, 68, 65, 84, 65]

/-- Claim C2: the claim states that `find_content_part` recognizes exactly the
occurrences of `"--<boundary>"` at line start, and that a `"--"` at line start
whose following bytes do not spell the boundary sets neither bound.  Evaluating
the embedding on a chunk containing `"--QQQ"` but not the boundary `"XYZ"`
shows the code nevertheless registers a part boundary and sets
`content_start = 19` (the offset of `DATA`, past the `CR LF CR LF`): the check
`g_str_has_prefix (boundary, b + 2) != 0 → continue` skips a candidate only
when the chunk tail is a prefix of the boundary, so arbitrary bytes after
`"--"` are accepted. -/
theorem C2_dashes_without_boundary_set_content_start :
    find_content_part c2Chunk [88, 89, 90] = (some 19, none, false) := by rfl

/-! ### Claim C3 -/

/-- Endpoint for the C3 inputs: registered, no session, a pending expiry timer. -/
def c3Endpoint : Endpoint :=
  { cookie := none, timeoutId := some 9, lifetime := 60, timeout := 5, message := none }

/-- A request with an unsupported method on the registered path. -/
def c3Request : Request :=
  { path := "/v", method := Method.other "DELETE", cookies := [],
    contentType := none, boundaryParam := none }

/-- The cookie the server would mint for the C3 request. -/
def c3Fresh : SessionCookie :=
  { name := "HttpEPCookie", value := "17", expired := false, secondsUntil := 60 }

/-- Claim C3 counterexample: a DELETE on a registered path is answered 405, yet
the handlers table is mutated (a session cookie is created on the endpoint,
its pending expiry timer is canceled and the message is bound), contradicting
the claim that routing errors mutate no state beyond the HTTP status. -/
theorem C3_counterexample_state_mutated_on_405 :
    (got_headers_handler [("/v", c3Endpoint)] c3Request c3Fresh).status = some 405 ∧
    ¬ (got_headers_handler [("/v", c3Endpoint)] c3Request c3Fresh).handlers =
        [("/v", c3Endpoint)] := by
  refine ⟨rfl, ?_⟩
  decide

/-- Claim C3 (amended): a request whose path is not registered is rejected with
404 before the session store is consulted and mutates nothing; a request on a
registered path whose method is neither GET nor POST is rejected with 405
before any GET/POST handler is installed and emits no action — but that
rejection happens after cookie processing, so the endpoint's state does change:
its session is the one cookie processing left (a fresh cookie may have been
created, with a Set-Cookie header on the 405 response), its pending expiry
timer is canceled and the message is bound to it with no handler ids. -/
theorem C3_routing_errors_amended (hs : List (String × Endpoint)) (req : Request)
    (fresh : SessionCookie) :
    (tableLookup hs req.path = none →
      got_headers_handler hs req fresh =
        { status := some 404, handlers := hs, actionsEmitted := [],
          setCookieIssued := false, getHandlersInstalled := false, postOutcome := none }) ∧
    (∀ ep s, tableLookup hs req.path = some ep → req.method = Method.other s →
      (kms_http_ep_server_manage_cookie_session ep req.cookies fresh).1 = true →
      got_headers_handler hs req fresh =
        { status := some 405,
          handlers := updateEp hs req.path
            { (kms_http_ep_server_manage_cookie_session ep req.cookies fresh).2.1 with
              timeoutId := none,
              message := some ⟨Method.other s, none, none, none, none⟩ },
          actionsEmitted := [],
          setCookieIssued := (kms_http_ep_server_manage_cookie_session ep req.cookies fresh).2.2,
          getHandlersInstalled := false, postOutcome := none }) := by
  constructor
  · intro h
    unfold got_headers_handler
    rw [h]
  · intro ep s hep hm hok
    unfold got_headers_handler
    rw [hep, hm]
    cases hcook : ep.cookie with
    | none =>
      simp [kms_http_ep_server_manage_cookie_session, hcook]
    | some c =>
      have hchk : kms_http_ep_server_check_cookie c req.cookies = true := by
        simpa [kms_http_ep_server_manage_cookie_session, hcook] using hok
      simp [kms_http_ep_server_manage_cookie_session, hcook, hchk]

/-- Witness for the amended C3 theorem at the concrete DELETE request. -/
theorem C3_amended_witness :
    got_headers_handler [("/v", c3Endpoint)] c3Request c3Fresh =
      { status := some 405,
        handlers := updateEp [("/v", c3Endpoint)] c3Request.path
          { (kms_http_ep_server_manage_cookie_session c3Endpoint c3Request.cookies c3Fresh).2.1 with
            timeoutId := none,
            message := some ⟨Method.other "DELETE", none, none, none, none⟩ },
        actionsEmitted := [],
        setCookieIssued :=
          (kms_http_ep_server_manage_cookie_session c3Endpoint c3Request.cookies c3Fresh).2.2,
        getHandlersInstalled := false, postOutcome := none } := by
  refine (C3_routing_errors_amended [("/v", c3Endpoint)] c3Request c3Fresh).2
    c3Endpoint "DELETE" ?_ ?_ ?_ <;> decide

/-! ### Claim C4 -/

/-- Claim C4: cookie round-trip.  For every request whose path is registered:
if the endpoint has no session, a Set-Cookie header is issued and the request
is not rejected with 400; if a session exists, the request avoids the 400
rejection iff the session cookie has not expired and some request cookie
matches its name and value by exact string equality, and on a 400 rejection
the handlers table (hence the endpoint's session) is unchanged and no
Set-Cookie header is issued. -/
theorem C4_cookie_round_trip (hs : List (String × Endpoint)) (req : Request)
    (fresh : SessionCookie) (ep : Endpoint)
    (hep : tableLookup hs req.path = some ep) :
    (ep.cookie = none →
      (got_headers_handler hs req fresh).setCookieIssued = true ∧
      ¬ (got_headers_handler hs req fresh).status = some 400) ∧
    (∀ c, ep.cookie = some c →
      ((¬ (got_headers_handler hs req fresh).status = some 400) ↔
        (c.expired = false ∧ ∃ rc ∈ req.cookies, rc.name = c.name ∧ rc.value = c.value)) ∧
      ((got_headers_handler hs req fresh).status = some 400 →
        (got_headers_handler hs req fresh).handlers = hs ∧
        (got_headers_handler hs req fresh).setCookieIssued = false)) := by
  constructor
  · intro hcook
    unfold got_headers_handler
    rw [hep]
    simp only [kms_http_ep_server_manage_cookie_session, hcook]
    cases hm : req.method with
    | get => simp
    | post =>
      rcases post_handler_status_cases req.contentType req.boundaryParam with h2 | h2 <;>
        simp [h2]
    | other s => simp
  · intro c hcook
    unfold got_headers_handler
    rw [hep]
    simp only [kms_http_ep_server_manage_cookie_session, hcook]
    cases hchk : kms_http_ep_server_check_cookie c req.cookies with
    | false =>
      have hrhs := (check_cookie_iff c req.cookies)
      rw [hchk] at hrhs
      simp only [Bool.false_eq_true, false_iff] at hrhs
      simp [hrhs]
    | true =>
      have hrhs := (check_cookie_iff c req.cookies).mp hchk
      cases hm : req.method with
      | get => simp [hrhs]
      | post =>
        rcases post_handler_status_cases req.contentType req.boundaryParam with h2 | h2 <;>
          simp [h2, hrhs]
      | other s => simp [hrhs]

/-- Endpoint for the C4 witness: registered and without a session. -/
def c4Ep : Endpoint :=
  { cookie := none, timeoutId := none, lifetime := 60, timeout := 5, message := none }

/-- A cookie-less GET request on the registered path. -/
def c4Req : Request :=
  { path := "/w4", method := Method.get, cookies := [],
    contentType := none, boundaryParam := none }

/-- The cookie the server would mint for the C4 request. -/
def c4Fresh : SessionCookie :=
  { name := "HttpEPCookie", value := "99", expired := false, secondsUntil := 60 }

/-- Witness for C4 at a concrete first request: Set-Cookie issued, not 400. -/
theorem C4_witness :
    (got_headers_handler [("/w4", c4Ep)] c4Req c4Fresh).setCookieIssued = true ∧
    ¬ (got_headers_handler [("/w4", c4Ep)] c4Req c4Fresh).status = some 400 :=
  (C4_cookie_round_trip [("/w4", c4Ep)] c4Req c4Fresh c4Ep rfl).1 rfl

/-! ### Claim C5 -/

/-- Claim C5: expiry bookkeeping.  With a session cookie present: on transfer
completion with an unexpired cookie, a one-shot timer is armed with interval
`min (seconds until expiry, idle timeout)` and nothing is emitted; with an
already-expired cookie, `url-expired` is emitted immediately and no timer is
armed; firing an armed timer emits exactly one `url-expired` and clears the
timer; and an admitted new request cancels the pending timer, after which a
fire event emits nothing (no spurious expiration after renewed activity). -/
theorem C5_expiry_timer (st : TimerState) (c : SessionCookie) (hc : st.cookie = some c) :
    (c.expired = false →
      timerStep st TimerEvent.completeTransfer =
        ({ st with timer := some (min c.secondsUntil st.timeoutParam) }, [])) ∧
    (c.expired = true →
      timerStep st TimerEvent.completeTransfer = (st, ["url-expired"])) ∧
    (∀ i, st.timer = some i →
      timerStep st TimerEvent.fire = ({ st with timer := none }, ["url-expired"])) ∧
    (timerStep st TimerEvent.admitRequest).1.timer = none ∧
    timerStep (timerStep st TimerEvent.admitRequest).1 TimerEvent.fire =
      ((timerStep st TimerEvent.admitRequest).1, []) := by
  refine ⟨?_, ?_, ?_, rfl, ?_⟩
  · intro h
    have hmin : (if c.secondsUntil < st.timeoutParam then c.secondsUntil else st.timeoutParam)
        = min c.secondsUntil st.timeoutParam := by
      rcases Nat.lt_or_ge c.secondsUntil st.timeoutParam with hlt | hge
      · simp [hlt, Nat.min_eq_left (Nat.le_of_lt hlt)]
      · simp [Nat.not_lt.mpr hge, Nat.min_eq_right hge]
    simp [timerStep, emit_expiration_signal, hc, cookie_has_expired, h, hmin]
  · intro h
    simp [timerStep, emit_expiration_signal, hc, cookie_has_expired, h]
  · intro i hi
    simp [timerStep, hi]
  · simp [timerStep]

/-- Timer state for the C5 witness: session alive, timer armed. -/
def c5St : TimerState :=
  { cookie := some { name := "HttpEPCookie", value := "7", expired := false, secondsUntil := 10 },
    timeoutParam := 5, timer := some 3 }

/-- Witness for C5: firing the armed timer emits one `url-expired` and clears it. -/
theorem C5_witness :
    timerStep c5St TimerEvent.fire = ({ c5St with timer := none }, ["url-expired"]) :=
  (C5_expiry_timer c5St
    { name := "HttpEPCookie", value := "7", expired := false, secondsUntil := 10 }
    rfl).2.2.1 3 rfl

/-! ### Claim C6 -/

/-- Claim C6: registration exclusivity.  After `register (p, e)` succeeds, and
after any further sequence of register/unregister operations none of which is
`unregister p`: looking up `p` still yields `e`; a further register on `p`
fails and leaves the table unchanged; the register entry point returns no URL
for `p`; and `unregister p` succeeds and removes the entry. -/
theorem C6_registration_exclusive (hs0 : List (String × Nat)) (p : String) (e e2 : Nat)
    (ops : List RegOp)
    (hreg : (kms_http_ep_server_register_handler hs0 p e).1 = true)
    (hops : ∀ op ∈ ops, ¬ op = RegOp.unreg p) :
    tableLookup (applyRegOps (kms_http_ep_server_register_handler hs0 p e).2 ops) p = some e ∧
    kms_http_ep_server_register_handler
        (applyRegOps (kms_http_ep_server_register_handler hs0 p e).2 ops) p e2 =
      (false, applyRegOps (kms_http_ep_server_register_handler hs0 p e).2 ops) ∧
    (kms_http_ep_server_register_end_point_impl
        (applyRegOps (kms_http_ep_server_register_handler hs0 p e).2 ops) p e2).1 = none ∧
    (kms_http_ep_server_unregister_end_point_impl
        (applyRegOps (kms_http_ep_server_register_handler hs0 p e).2 ops) p).1 = true ∧
    tableLookup
        (kms_http_ep_server_unregister_end_point_impl
          (applyRegOps (kms_http_ep_server_register_handler hs0 p e).2 ops) p).2 p = none := by
  have hl0 : tableLookup hs0 p = none := by
    cases hl : tableLookup hs0 p with
    | none => rfl
    | some w => simp [kms_http_ep_server_register_handler, hl] at hreg
  have hs1eq : (kms_http_ep_server_register_handler hs0 p e).2 = (p, e) :: hs0 := by
    simp [kms_http_ep_server_register_handler, hl0]
  have hl1 : tableLookup (kms_http_ep_server_register_handler hs0 p e).2 p = some e := by
    rw [hs1eq, tableLookup_cons]
    simp
  have hl2 : tableLookup
      (applyRegOps (kms_http_ep_server_register_handler hs0 p e).2 ops) p = some e :=
    applyRegOps_keeps ops _ p e hl1 hops
  refine ⟨hl2, register_fails_of_lookup_some _ _ e e2 hl2, ?_, ?_, ?_⟩
  · rw [kms_http_ep_server_register_end_point_impl,
      register_fails_of_lookup_some _ _ e e2 hl2]
  · simp [kms_http_ep_server_unregister_end_point_impl, hl2]
  · simp [kms_http_ep_server_unregister_end_point_impl, hl2, tableLookup_filter_self]

/-- Witness for C6 at a concrete table: register `"/u6"`, then an unrelated
registration; the lookup still yields the original endpoint and a second
register on `"/u6"` fails without change. -/
theorem C6_witness :
    tableLookup
        (applyRegOps (kms_http_ep_server_register_handler ([] : List (String × Nat)) "/u6" 1).2
          [RegOp.reg "/w6" 3]) "/u6" = some 1 ∧
    kms_http_ep_server_register_handler
        (applyRegOps (kms_http_ep_server_register_handler ([] : List (String × Nat)) "/u6" 1).2
          [RegOp.reg "/w6" 3]) "/u6" 2 =
      (false,
        applyRegOps (kms_http_ep_server_register_handler ([] : List (String × Nat)) "/u6" 1).2
          [RegOp.reg "/w6" 3]) := by
  have h := C6_registration_exclusive [] "/u6" 1 2 [RegOp.reg "/w6" 3] rfl (by decide)
  exact ⟨h.1, h.2.1⟩

/-! ### Claim C7 -/

/-- Claim C7: every write task re-checks the finished flag before writing.  If
`finished` is set the task leaves the message state untouched (the sample is
dropped); otherwise, for a sample whose bytes were obtained, the bytes are
appended to the response body and the message is resumed; consequently, after
`finished` is set, no sequence of write tasks ever changes the response body. -/
theorem C7_no_write_after_finished (st : MsgIOState) :
    (st.finished = true → ∀ s, send_buffer_cb st s = st) ∧
    (st.finished = false → ∀ bs, send_buffer_cb st (some bs) =
      { st with responseBody := st.responseBody ++ [bs], resumed := true }) ∧
    (st.finished = true → ∀ tasks : List (Option (List Nat)),
      (tasks.foldl send_buffer_cb st).responseBody = st.responseBody) := by
  refine ⟨?_, ?_, ?_⟩
  · intro h s
    simp [send_buffer_cb, h]
  · intro h bs
    simp [send_buffer_cb, h]
  · intro h tasks
    have hfix : ∀ ts : List (Option (List Nat)), ts.foldl send_buffer_cb st = st := by
      intro ts
      induction ts with
      | nil => rfl
      | cons t ts ih => simpa [List.foldl, send_buffer_cb, h] using ih
    rw [hfix]

/-- Witness for C7: a finished message drops the sample; an unfinished one
appends and resumes. -/
theorem C7_witness :
    send_buffer_cb { finished := true, responseBody := [[7]], resumed := false } (some [1]) =
      { finished := true, responseBody := [[7]], resumed := false } ∧
    send_buffer_cb { finished := false, responseBody := [], resumed := false } (some [1]) =
      { finished := false, responseBody := [[1]], resumed := true } := by
  constructor
  · exact (C7_no_write_after_finished
      { finished := true, responseBody := [[7]], resumed := false }).1 rfl (some [1])
  · exact (C7_no_write_after_finished
      { finished := false, responseBody := [], resumed := false }).2.1 rfl [1]

/-! ### Claim C8 -/

/-- Endpoint for the C8 input: registered, no session, a pending timer. -/
def c8Endpoint : Endpoint :=
  { cookie := none, timeoutId := some 7, lifetime := 60, timeout := 5, message := none }

/-- A PUT request on the registered path: dispatch binds the message and then
rejects with 405, installing no handlers. -/
def c8Request : Request :=
  { path := "/u", method := Method.other "PUT", cookies := [],
    contentType := none, boundaryParam := none }

/-- The cookie the server would mint for the C8 request. -/
def c8Fresh : SessionCookie :=
  { name := "HttpEPCookie", value := "42", expired := false, secondsUntil := 60 }

/-- The message the C8 dispatch leaves bound on the endpoint: no handler id
was ever stored on it. -/
def c8BoundMsg : PendingMsg :=
  { method := Method.other "PUT", newSampleHandlerId := none, eosHandlerId := none,
    gotChunkHandlerId := none, finishedHandlerId := none }

/-- Claim C8: the claim states that `destroy_pending_message` never
dereferences an unset handler-id slot, in particular for a bound message whose
method is neither GET nor POST.  Evaluating the embedding: a PUT dispatch on a
registered path binds a message with every handler-id slot unset, and tearing
that binding down dereferences the NULL finished-handler id. -/
theorem C8_teardown_null_deref :
    Option.bind
        (tableLookup (got_headers_handler [("/u", c8Endpoint)] c8Request c8Fresh).handlers "/u")
        (fun e => e.message) = some c8BoundMsg ∧
    destroy_pending_message true c8BoundMsg =
      Except.error "null handler id dereferenced" := by
  exact ⟨rfl, rfl⟩

/-! ### Claim C9 -/

/-- Claim C9: the claim states that every byte read by `find_content_part` lies
inside the chunk.  Evaluating the embedding on the chunk `"\n--A\r\nX"` with
boundary `"A"` yields the out-of-range flag: the candidate `"--"` sits at
offset 1, its line-start test reads `b[-1] = LF` and then `b[-2]`, one byte
before the chunk.  (The header-skip loop has further out-of-range accesses,
e.g. dereferencing the NULL result of its inner `memchr` when a located
content start is followed by no CR, as on `"--A\r\nNO"`.) -/
theorem C9_read_before_chunk :
    find_content_part [10, 45, 45, 65, 13, 10, 88] [65] = (none, none, true) := by rfl

/-! ### Claim C10 -/

/-- Claim C10: for a POST on a registered path that passes cookie validation,
`action-requested (path, Post)` is emitted even when the POST handler rejects
the request — in particular, with no Content-Type header the status is 406,
no handlers are installed, and the action is still emitted. -/
theorem C10_action_requested_despite_406 (hs : List (String × Endpoint)) (req : Request)
    (fresh : SessionCookie) (ep : Endpoint)
    (hep : tableLookup hs req.path = some ep)
    (hm : req.method = Method.post)
    (hok : (kms_http_ep_server_manage_cookie_session ep req.cookies fresh).1 = true) :
    (got_headers_handler hs req fresh).actionsEmitted = [(req.path, HttpAction.post)] ∧
    (req.contentType = none →
      (got_headers_handler hs req fresh).status = some 406 ∧
      (got_headers_handler hs req fresh).postOutcome =
        some { status := 406, boundaryStored := none,
               gotChunkConnected := false, finishedConnected := false }) := by
  unfold got_headers_handler
  rw [hep, hm]
  cases hcook : ep.cookie with
  | none =>
    simp only [kms_http_ep_server_manage_cookie_session, hcook]
    constructor
    · simp
    · intro hct
      simp [kms_http_ep_server_post_handler, hct]
  | some c =>
    have hchk : kms_http_ep_server_check_cookie c req.cookies = true := by
      simpa [kms_http_ep_server_manage_cookie_session, hcook] using hok
    simp only [kms_http_ep_server_manage_cookie_session, hcook, hchk]
    constructor
    · simp
    · intro hct
      simp [kms_http_ep_server_post_handler, hct]

/-- Endpoint for the C10 witness: registered, no session. -/
def c10Ep : Endpoint :=
  { cookie := none, timeoutId := none, lifetime := 60, timeout := 5, message := none }

/-- A POST without a Content-Type header on the registered path. -/
def c10Req : Request :=
  { path := "/wX", method := Method.post, cookies := [],
    contentType := none, boundaryParam := none }

/-- The cookie the server would mint for the C10 request. -/
def c10Fresh : SessionCookie :=
  { name := "HttpEPCookie", value := "13", expired := false, secondsUntil := 60 }

/-- Witness for C10: the 406-rejected POST still emits `action-requested`. -/
theorem C10_witness :
    (got_headers_handler [("/wX", c10Ep)] c10Req c10Fresh).actionsEmitted =
      [("/wX", HttpAction.post)] ∧
    (got_headers_handler [("/wX", c10Ep)] c10Req c10Fresh).status = some 406 := by
  have h := C10_action_requested_despite_406 [("/wX", c10Ep)] c10Req c10Fresh c10Ep rfl rfl rfl
  exact ⟨h.1, (h.2 rfl).1⟩
